import Mathlib

/-!
Verification development for the PTF upload orchestrator
(`su_service/src/index.ts`, a fetch-event worker that turns one client
`POST /files/{name}` request into three sequential backend calls).

The embedding models the worker's pure request/response behaviour:
machine strings are Lean `String`s, HTTP bodies are byte strings, the
three backend responses are supplied by a `world : Nat → Resp` oracle
(call number `n` receives `world n`), and the list of outbound calls
actually issued is returned alongside the result so that call counts and
call ordering are provable facts.
-/

namespace PTF

/-! ## JSON values

Models the JSON fragment the orchestrator exercises through
`response.json()` / `JSON.stringify`: objects, strings, integer numbers,
booleans and null.  Arrays, fractional/exponent numbers and `\u` string
escapes are outside the modelled fragment (the parser rejects them, so
theorems conditioned on a successful parse never touch them). -/

inductive Json where
  | null : Json
  | bool : Bool → Json
  | num : String → Json
  | str : String → Json
  | obj : List (String × Json) → Json

/-- Inserting a field like `JSON.parse` builds JavaScript objects: a
duplicate key overwrites the earlier value in place (first-insertion
position, last value). -/
def setField (fs : List (String × Json)) (k : String) (v : Json) : List (String × Json) :=
  match fs with
  | [] => [(k, v)]
  | (k2, v2) :: rest => if k2 = k then (k2, v) :: rest else (k2, v2) :: setField rest k v

/-- JavaScript property access `j.k` on a parsed JSON value.  Access on
a `null` receiver throws a TypeError (`.error ()`) — for a 2xx body of
literally `null`, `response.json()` succeeds and the subsequent
`messageResponse.id` / `linkResponse.token` / `responseData.shareable_link`
access aborts the handler, since the thrown TypeError is not a
`Response`.  A primitive receiver or an object without the key yields
`undefined` (`.ok none`). -/
def Json.get (j : Json) (k : String) : Except Unit (Option Json) :=
  match j with
  | .null => .error ()
  | .obj fields => .ok ((fields.find? (fun p => p.1 == k)).map (fun p => p.2))
  | _ => .ok none

/-- JavaScript `ToString` of a property-access result, as used by
template-literal interpolation and by `String.prototype.replace` on its
replacement argument (`undefined` prints as "undefined"). -/
def jsToString : Option Json → String
  | none => "undefined"
  | some .null => "null"
  | some (.bool true) => "true"
  | some (.bool false) => "false"
  | some (.num s) => s
  | some (.str s) => s
  | some (.obj _) => "[object Object]"

def escapeJsonChar (c : Char) : List Char :=
  if c = Char.ofNat 34 then [Char.ofNat 92, Char.ofNat 34]
  else if c = Char.ofNat 92 then [Char.ofNat 92, Char.ofNat 92]
  else if c.toNat = 8 then [Char.ofNat 92, Char.ofNat 98]
  else if c.toNat = 12 then [Char.ofNat 92, Char.ofNat 102]
  else if c.toNat = 10 then [Char.ofNat 92, Char.ofNat 110]
  else if c.toNat = 13 then [Char.ofNat 92, Char.ofNat 114]
  else if c.toNat = 9 then [Char.ofNat 92, Char.ofNat 116]
  else if c.toNat < 32 then
    [Char.ofNat 92, Char.ofNat 117, Char.ofNat 48, Char.ofNat 48,
     Char.ofNat (if c.toNat / 16 < 10 then 48 + c.toNat / 16 else 87 + c.toNat / 16),
     Char.ofNat (if c.toNat % 16 < 10 then 48 + c.toNat % 16 else 87 + c.toNat % 16)]
  else [c]

def quoteJson (s : String) : String :=
  "\"" ++ String.mk (s.data.map escapeJsonChar).flatten ++ "\""

mutual

/-- `JSON.stringify` on the modelled JSON fragment (no spacing, insertion
order of keys — matching V8 on parsed objects). -/
def Json.stringify : Json → String
  | .null => "null"
  | .bool true => "true"
  | .bool false => "false"
  | .num s => s
  | .str s => quoteJson s
  | .obj fs => "\x7b" ++ stringifyFields fs ++ "\x7d"

def stringifyFields : List (String × Json) → String
  | [] => ""
  | [(k, v)] => quoteJson k ++ ":" ++ Json.stringify v
  | (k, v) :: rest => quoteJson k ++ ":" ++ Json.stringify v ++ "," ++ stringifyFields rest

end

/-! ### JSON parser (`response.json()` / `JSON.parse`) -/

def jsonWs : List Char → List Char
  | [] => []
  | c :: rest =>
    if c.toNat = 32 ∨ c.toNat = 9 ∨ c.toNat = 10 ∨ c.toNat = 13 then jsonWs rest else c :: rest

def escapeOf (e : Char) : Option Char :=
  if e = Char.ofNat 34 then some (Char.ofNat 34)
  else if e = Char.ofNat 92 then some (Char.ofNat 92)
  else if e = Char.ofNat 47 then some (Char.ofNat 47)
  else if e = Char.ofNat 98 then some (Char.ofNat 8)
  else if e = Char.ofNat 102 then some (Char.ofNat 12)
  else if e = Char.ofNat 110 then some (Char.ofNat 10)
  else if e = Char.ofNat 114 then some (Char.ofNat 13)
  else if e = Char.ofNat 116 then some (Char.ofNat 9)
  else none

def parseStrBody : List Char → Option (List Char × List Char)
  | [] => none
  | c :: rest =>
    if c = Char.ofNat 34 then some ([], rest)
    else if c = Char.ofNat 92 then
      match rest with
      | [] => none
      | e :: rest2 =>
        match escapeOf e with
        | none => none
        | some ec => (parseStrBody rest2).map (fun pr => (ec :: pr.1, pr.2))
    else if c.toNat < 32 then none
    else (parseStrBody rest).map (fun pr => (c :: pr.1, pr.2))

def takeDigits : List Char → List Char × List Char
  | [] => ([], [])
  | c :: rest =>
    if c.isDigit then
      let p := takeDigits rest
      (c :: p.1, p.2)
    else ([], c :: rest)

def parseNum (cs : List Char) : Option (Json × List Char) :=
  let sr : Bool × List Char :=
    match cs with
    | c :: rest => if c = Char.ofNat 45 then (true, rest) else (false, cs)
    | [] => (false, [])
  match takeDigits sr.2 with
  | ([], _) => none
  | (d :: ds, rest) =>
    if d = Char.ofNat 48 ∧ ds ≠ [] then none
    else some (.num (String.mk (if sr.1 then Char.ofNat 45 :: d :: ds else d :: ds)), rest)

mutual

def parseVal : Nat → List Char → Option (Json × List Char)
  | 0, _ => none
  | fuel + 1, cs0 =>
    match jsonWs cs0 with
    | [] => none
    | c :: rest =>
      if c = Char.ofNat 34 then
        (parseStrBody rest).map (fun pr => (Json.str (String.mk pr.1), pr.2))
      else if c = Char.ofNat 123 then
        match jsonWs rest with
        | [] => none
        | c2 :: rest2 =>
          if c2 = Char.ofNat 125 then some (.obj [], rest2)
          else parseFields fuel [] (c2 :: rest2)
      else if ("null".data).isPrefixOf (c :: rest) then some (.null, (c :: rest).drop 4)
      else if ("true".data).isPrefixOf (c :: rest) then some (.bool true, (c :: rest).drop 4)
      else if ("false".data).isPrefixOf (c :: rest) then some (.bool false, (c :: rest).drop 5)
      else parseNum (c :: rest)

def parseFields : Nat → List (String × Json) → List Char → Option (Json × List Char)
  | 0, _, _ => none
  | fuel + 1, acc, cs =>
    match jsonWs cs with
    | [] => none
    | c :: rest =>
      if c = Char.ofNat 34 then
        match parseStrBody rest with
        | none => none
        | some (key, rest2) =>
          match jsonWs rest2 with
          | [] => none
          | c2 :: rest3 =>
            if c2 = Char.ofNat 58 then
              match parseVal fuel rest3 with
              | none => none
              | some (v, rest4) =>
                match jsonWs rest4 with
                | [] => none
                | c3 :: rest5 =>
                  if c3 = Char.ofNat 44 then parseFields fuel (setField acc (String.mk key) v) rest5
                  else if c3 = Char.ofNat 125 then some (.obj (setField acc (String.mk key) v), rest5)
                  else none
            else none
      else none

end

/-- Models `JSON.parse` on a whole body: a value followed by only
whitespace. -/
def Json.parse (s : String) : Option Json :=
  match parseVal (2 * s.length + 4) s.data with
  | some (j, rest) => if jsonWs rest = [] then some j else none
  | none => none

/-! ## `encodeURIComponent` -/

/-- UTF-8 bytes of a code point. -/
def utf8Bytes (n : Nat) : List Nat :=
  if n < 128 then [n]
  else if n < 2048 then [192 + n / 64, 128 + n % 64]
  else if n < 65536 then [224 + n / 4096, 128 + (n / 64) % 64, 128 + n % 64]
  else [240 + n / 262144, 128 + (n / 4096) % 64, 128 + (n / 64) % 64, 128 + n % 64]

def hexUpper (n : Nat) : Char :=
  if n < 10 then Char.ofNat (48 + n) else Char.ofNat (55 + n)

def pctEncodeByte (b : Nat) : List Char :=
  [Char.ofNat 37, hexUpper (b / 16), hexUpper (b % 16)]

/-- Characters `encodeURIComponent` leaves unescaped:
`A-Z a-z 0-9 - _ . ! ~ * ' ( )`. -/
def uriKeep (c : Char) : Bool :=
  c.isAlpha || c.isDigit || [45, 95, 46, 33, 126, 42, 39, 40, 41].contains c.toNat

/-- JavaScript `encodeURIComponent`. -/
def encodeURIComponent (s : String) : String :=
  String.mk (s.data.map
    (fun c => if uriKeep c then [c] else ((utf8Bytes c.toNat).map pctEncodeByte).flatten)).flatten

/-! ## JavaScript `String.prototype.replace` with a string pattern

`replace` substitutes the first occurrence only, and runs the
`GetSubstitution` expansion on the replacement string: the two-character
sequences dollar-dollar, dollar-ampersand, dollar-backtick and
dollar-apostrophe expand to a literal dollar, the matched substring, the
portion before the match and the portion after the match respectively;
any other use of the dollar character stays literal (a plain string
pattern has no capture groups). -/

def findSub : List Char → List Char → Option Nat
  | hay, pat =>
    if pat.isPrefixOf hay then some 0
    else
      match hay with
      | [] => none
      | _ :: t => (findSub t pat).map (fun i => i + 1)

def getSubst (matched before after : String) : List Char → List Char
  | [] => []
  | c :: rest =>
    if c = Char.ofNat 36 then
      match rest with
      | [] => [c]
      | d :: rest2 =>
        if d = Char.ofNat 36 then c :: getSubst matched before after rest2
        else if d = Char.ofNat 38 then matched.data ++ getSubst matched before after rest2
        else if d = Char.ofNat 96 then before.data ++ getSubst matched before after rest2
        else if d = Char.ofNat 39 then after.data ++ getSubst matched before after rest2
        else c :: getSubst matched before after (d :: rest2)
    else c :: getSubst matched before after rest

/-- JavaScript `s.replace(pat, repl)` with string arguments. -/
def jsStringReplace (s pat repl : String) : String :=
  match findSub s.data pat.data with
  | none => s
  | some i =>
    let before := s.data.take i
    let after := s.data.drop (i + pat.data.length)
    String.mk (before ++ getSubst pat (String.mk before) (String.mk after) repl.data ++ after)

/-- Spec-side definition, following the spec's words: replace the first
occurrence of `pat` in `s` by the replacement taken literally ("a single
first-occurrence literal string substitution"). -/
def specLiteralReplaceFirst (s pat repl : String) : String :=
  match findSub s.data pat.data with
  | none => s
  | some i => String.mk (s.data.take i ++ repl.data ++ s.data.drop (i + pat.data.length))

/-! ## Percent-decoding (spec-side)

Modelled from the spec: the spec describes the file name as
"percent-decoded once for validation purposes then percent-encoded
exactly once"; the source contains no decode, so the decode exists here
only to state the spec's version for comparison. -/

def hexVal (c : Char) : Option Nat :=
  if 48 ≤ c.toNat ∧ c.toNat ≤ 57 then some (c.toNat - 48)
  else if 65 ≤ c.toNat ∧ c.toNat ≤ 70 then some (c.toNat - 55)
  else if 97 ≤ c.toNat ∧ c.toNat ≤ 102 then some (c.toNat - 87)
  else none

def readPct : List Char → Option (Nat × List Char)
  | p :: h1 :: h2 :: rest =>
    if p = Char.ofNat 37 then
      match hexVal h1, hexVal h2 with
      | some a, some b => some (16 * a + b, rest)
      | _, _ => none
    else none
  | _ => none

def pctDecode : Nat → List Char → Option (List Char)
  | 0, [] => some []
  | 0, _ :: _ => none
  | _ + 1, [] => some []
  | fuel + 1, c :: rest =>
    if c = Char.ofNat 37 then
      match readPct (c :: rest) with
      | none => none
      | some (b, r2) =>
        if b < 128 then (pctDecode fuel r2).map (fun t => Char.ofNat b :: t)
        else if b < 194 then none
        else if b < 224 then
          match readPct r2 with
          | some (b2, r3) =>
            if 128 ≤ b2 ∧ b2 < 192 then
              (pctDecode fuel r3).map (fun t => Char.ofNat ((b - 192) * 64 + (b2 - 128)) :: t)
            else none
          | none => none
        else if b < 240 then
          match readPct r2 with
          | some (b2, r3) =>
            match readPct r3 with
            | some (b3, r4) =>
              if (128 ≤ b2 ∧ b2 < 192) ∧ (128 ≤ b3 ∧ b3 < 192) then
                (pctDecode fuel r4).map
                  (fun t => Char.ofNat ((b - 224) * 4096 + (b2 - 128) * 64 + (b3 - 128)) :: t)
              else none
            | none => none
          | none => none
        else
          match readPct r2 with
          | some (b2, r3) =>
            match readPct r3 with
            | some (b3, r4) =>
              match readPct r4 with
              | some (b4, r5) =>
                if (128 ≤ b2 ∧ b2 < 192) ∧ (128 ≤ b3 ∧ b3 < 192) ∧ (128 ≤ b4 ∧ b4 < 192) then
                  (pctDecode fuel r5).map
                    (fun t => Char.ofNat
                      ((b - 240) * 262144 + (b2 - 128) * 4096 + (b3 - 128) * 64 + (b4 - 128)) :: t)
                else none
              | none => none
            | none => none
          | none => none
    else (pctDecode fuel rest).map (fun t => c :: t)

/-- Spec-side `decodeURIComponent` (percent-decode once). -/
def decodeURIComponentSpec (s : String) : Option String :=
  (pctDecode s.length s.data).map String.mk

/-! ## Strings and headers -/

/-- ASCII byte-uppercase, as the fetch specification's method
normalization uses. -/
def asciiUpper (s : String) : String :=
  String.mk (s.data.map (fun c =>
    if 97 ≤ c.toNat ∧ c.toNat ≤ 122 then Char.ofNat (c.toNat - 32) else c))

/-- ASCII byte-lowercase, for case-insensitive header-name matching. -/
def asciiLower (s : String) : String :=
  String.mk (s.data.map (fun c =>
    if 65 ≤ c.toNat ∧ c.toNat ≤ 90 then Char.ofNat (c.toNat + 32) else c))

/-- JavaScript `str.split(sep)` for a one-character separator (the source
only splits on "/").  Always returns a non-empty list. -/
def charSplit (sep : Char) : List Char → List (List Char)
  | [] => [[]]
  | c :: rest =>
    if c = sep then [] :: charSplit sep rest
    else
      match charSplit sep rest with
      | [] => [[c]]
      | h :: t => (c :: h) :: t

/-- `url.pathname.split("/")`. -/
def jsSplitSlash (s : String) : List String :=
  (charSplit (Char.ofNat 47) s.data).map String.mk

/-- Header names compare case-insensitively. -/
def headerNameEq (a b : String) : Bool :=
  asciiLower a == asciiLower b

/-- `Headers.get`: value of the first header whose name matches. -/
def headersGet (hs : List (String × String)) (n : String) : Option String :=
  (hs.find? (fun p => headerNameEq p.1 n)).map (fun p => p.2)

/-- `Headers.set`: if a header with the name exists, overwrite the first
occurrence in place (keeping its stored name casing) and drop any later
occurrences; otherwise append the header. -/
def headersSetList (n v : String) : List (String × String) → List (String × String)
  | [] => [(n, v)]
  | p :: rest =>
    if headerNameEq p.1 n then (p.1, v) :: rest.filter (fun q => ! headerNameEq q.1 n)
    else p :: headersSetList n v rest

/-! ## HTTP model

Requests and responses as the worker observes them.  The inbound URL is
modelled already parsed (`pathname` plus decoded query pairs), since URL
parsing is host behaviour; a `Resp` is a status, status text, header
list and body bytes.  Each backend's answer is drawn from a
`world : Nat → Resp` oracle: the n-th `fetch` performed within the
request receives `world n`. -/

inductive BodyT where
  | str : String → BodyT
  | stream : String → BodyT
deriving DecidableEq

structure BodyInfo where
  body : BodyT
  contentType : String
deriving DecidableEq

structure Resp where
  status : Nat
  statusText : String
  headers : List (String × String)
  body : String
deriving DecidableEq

structure OutReq where
  endpoint : String
  method : String
  auth : String
  contentType : String
  body : BodyT
deriving DecidableEq

structure InboundRequest where
  method : String
  pathname : String
  query : List (String × String)
  authorizationHeader : Option String
  contentTypeHeader : Option String
  body : Option BodyT
deriving DecidableEq

structure Env where
  MESSAGE_SERVICE_HOSTNAME : String
  AUTH_SERVICE_HOSTNAME : String
  FILE_SERVICE_HOSTNAME : String
deriving DecidableEq

inductive Thrown where
  | thrownResp : Resp → Thrown
  | jsError : Thrown
deriving DecidableEq

inductive Outcome where
  | resp : Resp → Outcome
  | scriptError : Outcome
deriving DecidableEq

def AUTHORIZATION_KEY : String := "Authorization"
def CONTENT_TYPE_KEY : String := "Content-Type"
def JSON_TYPE : String := "application/json"

/-- Status of a handler outcome (for stating counterexamples). -/
def outcomeStatus : Outcome → Option Nat
  | .resp r => some r.status
  | .scriptError => none

/-- The `Request` constructor byte-uppercases a method that
case-insensitively matches one of the six normalized methods. -/
def normalizeMethod (m : String) : String :=
  let u := asciiUpper m
  if ["DELETE", "GET", "HEAD", "OPTIONS", "POST", "PUT"].contains u then u else m

/-! ## The orchestrator (`su_service/src/index.ts`) -/

/-- The source's `request` helper, applied to the response the oracle
supplies for this call.  Mirrors: build the outbound request from
endpoint/auth/bodyInfo/method; if the response status is outside
[200, 300), rebuild the response, set the `Response-Source` header to
`by=<serviceName>` and throw it; otherwise return `response.json()`
(a parse failure throws a non-`Response` error, modelled `jsError`). -/
def requestStep (endpoint auth serviceName : String) (bodyInfo : BodyInfo) (method : String)
    (response : Resp) : OutReq × Except Thrown Json :=
  let outbound : OutReq :=
    { endpoint := endpoint, method := normalizeMethod method, auth := auth,
      contentType := bodyInfo.contentType, body := bodyInfo.body }
  if response.status < 200 ∨ 300 ≤ response.status then
    (outbound, .error (.thrownResp
      { status := response.status, statusText := response.statusText,
        headers := headersSetList "Response-Source" ("by=" ++ serviceName) response.headers,
        body := response.body }))
  else
    match Json.parse response.body with
    | some j => (outbound, .ok j)
    | none => (outbound, .error .jsError)

def defaultBodyInfo : BodyInfo := { body := .str "\x7b\x7d", contentType := JSON_TYPE }

/-- The source's `createFile`: encode the name, create a message, create
a link for the message id, PUT the file, then compose the 201 response
whose `Location` is `shareable_link` with `\x7blink_token\x7d` replaced
by the link token.  Returns the result together with the ordered list of
outbound calls made.  Property access on a JSON-`null` backend body
throws (`jsError`) at the point the source evaluates it:
`messageResponse.id` between calls 1 and 2, and
`responseData.shareable_link` / `location.replace` / `linkResponse.token`
(in that evaluation order) after call 3.  The `_expireAfter` parameter
is accepted and never used, as in the source. -/
def createFile (env : Env) (world : Nat → Resp) (name : String) (data : BodyT)
    (auth contentType : String) (_expireAfter : Option String) :
    Except Thrown Resp × List OutReq :=
  let encName := encodeURIComponent name
  let step1 := requestStep (env.MESSAGE_SERVICE_HOSTNAME ++ "/messages") auth
    "message-service" defaultBodyInfo "post" (world 0)
  match step1.2 with
  | .error t => (.error t, [step1.1])
  | .ok messageJson =>
    match Json.get messageJson "id" with
    | .error _ => (.error .jsError, [step1.1])
    | .ok idProp =>
      let msgId := jsToString idProp
      let step2 := requestStep (env.AUTH_SERVICE_HOSTNAME ++ "/messages/" ++ msgId ++ "/links")
        auth "auth-service" defaultBodyInfo "post" (world 1)
      match step2.2 with
      | .error t => (.error t, [step1.1, step2.1])
      | .ok linkJson =>
        let step3 := requestStep
          (env.FILE_SERVICE_HOSTNAME ++ "/messages/" ++ msgId ++ "/files/" ++ encName)
          auth "file-service" { body := data, contentType := contentType } "put" (world 2)
        match step3.2 with
        | .error t => (.error t, [step1.1, step2.1, step3.1])
        | .ok fileJson =>
          match Json.get fileJson "shareable_link" with
          | .ok (some (.str location)) =>
            match Json.get linkJson "token" with
            | .error _ => (.error .jsError, [step1.1, step2.1, step3.1])
            | .ok tokenProp =>
              (.ok { status := 201, statusText := "",
                     headers := [(CONTENT_TYPE_KEY, JSON_TYPE),
                                 ("Location", jsStringReplace location "\x7blink_token\x7d"
                                   (jsToString tokenProp))],
                     body := Json.stringify fileJson },
               [step1.1, step2.1, step3.1])
          | _ => (.error .jsError, [step1.1, step2.1, step3.1])

/-- `url.searchParams.get`. -/
def searchParamsGet (query : List (String × String)) (key : String) : Option String :=
  (query.find? (fun p => p.1 == key)).map (fun p => p.2)

/-- JavaScript truthiness of `headers.get(...)`: `null` and the empty
string are both falsy. -/
def truthy : Option String → Option String
  | none => none
  | some s => if s = "" then none else some s

/-- The source's top-level `try/catch`: a thrown `Response` becomes the
client response; any other thrown value is rethrown out of the handler. -/
def catchResult : Except Thrown Resp → Outcome
  | .ok r => .resp r
  | .error (.thrownResp r) => .resp r
  | .error .jsError => .scriptError

/-- The `Response` thrown by a backend-call step, when there is one (for
stating counterexamples). -/
def thrownOf : Except Thrown Json → Option Resp
  | .error (.thrownResp r) => some r
  | _ => none

/-- The source's `handleRequest`: path-shape check (404), method check
(405), authorization header (403 + Basic challenge), content type (400),
body presence (400), then `createFile` with the last path segment, the
body stream, both headers and the `file_name` query parameter. -/
def handleRequest (env : Env) (world : Nat → Resp) (req : InboundRequest) :
    Outcome × List OutReq :=
  let pathNames := jsSplitSlash req.pathname
  let fileName := pathNames.getLastD ""
  if pathNames.length ≠ 3 ∨ fileName = "" then
    (.resp { status := 404, statusText := "", headers := [], body := "" }, [])
  else if req.method ≠ "POST" then
    (.resp { status := 405, statusText := "", headers := [], body := "" }, [])
  else
    match truthy req.authorizationHeader with
    | none =>
      (.resp { status := 403, statusText := "",
               headers := [("WWW-Authenticate", "Basic")],
               body := "Missing authorization header" }, [])
    | some auth =>
      match truthy req.contentTypeHeader with
      | none =>
        (.resp { status := 400, statusText := "", headers := [],
                 body := "Missing content type header" }, [])
      | some contentType =>
        match req.body with
        | none =>
          (.resp { status := 400, statusText := "", headers := [], body := "Missing body" }, [])
        | some data =>
          let result := createFile env world fileName data auth contentType
            (searchParamsGet req.query "file_name")
          (catchResult result.1, result.2)

/-! ## Concrete scenarios (used by witnesses and counterexamples) -/

def demoEnv : Env := ⟨"http://m", "http://a", "http://f"⟩

def msgOk : Resp := ⟨200, "OK", [], "\x7b\"id\":\"7\"\x7d"⟩

def linkOk : Resp := ⟨200, "OK", [], "\x7b\"token\":\"tok1\"\x7d"⟩

def fileOk : Resp := ⟨200, "OK", [], "\x7b\"shareable_link\":\"https://s/\x7blink_token\x7d\"\x7d"⟩

/-- An auth backend whose token is the two characters dollar-ampersand
(a perfectly legal string value that `replace` treats as an escape). -/
def linkDollar : Resp := ⟨200, "OK", [], "\x7b\"token\":\"$&\"\x7d"⟩

/-- A file backend answer whose JSON carries extra whitespace, so its
re-serialization is not byte-identical. -/
def fileSpaced : Resp :=
  ⟨200, "OK", [], "\x7b \"shareable_link\": \"https://s/\x7blink_token\x7d\" \x7d"⟩

/-- A backend response that already carries a `Response-Source` header. -/
def preProvResp : Resp :=
  ⟨500, "Internal Server Error", [("Response-Source", "by=origin")], "boom"⟩

def demoWorld : Nat → Resp :=
  fun n => if n = 0 then msgOk else if n = 1 then linkOk else fileOk

def demoWorldDollar : Nat → Resp :=
  fun n => if n = 0 then msgOk else if n = 1 then linkDollar else fileOk

def demoWorldC7 : Nat → Resp :=
  fun n => if n = 0 then msgOk else if n = 1 then linkDollar else fileSpaced

def demoWorldMsgFail : Nat → Resp :=
  fun n => if n = 0 then ⟨500, "Internal Server Error", [("X-Req", "1")], "boom"⟩ else msgOk

def demoWorldLinkFail : Nat → Resp :=
  fun n => if n = 0 then msgOk else if n = 1 then ⟨401, "Unauthorized", [], "denied"⟩ else fileOk

/-- Like `demoWorldLinkFail` but the message backend hands out a
different id — used to witness that the error response is independent of
step 1's answer. -/
def demoWorldLinkFail2 : Nat → Resp :=
  fun n => if n = 0 then ⟨200, "OK", [], "\x7b\"id\":\"8\"\x7d"⟩
    else if n = 1 then ⟨401, "Unauthorized", [], "denied"⟩ else fileOk

def reqDoc : InboundRequest :=
  ⟨"POST", "/files/doc.pdf", [], some "Basic x", some "text/plain", some (.stream "bytes")⟩

/-! ## Helper lemmas -/

theorem requestStep_fst (endpoint auth serviceName : String) (bodyInfo : BodyInfo)
    (method : String) (response : Resp) :
    (requestStep endpoint auth serviceName bodyInfo method response).1 =
      { endpoint := endpoint, method := normalizeMethod method, auth := auth,
        contentType := bodyInfo.contentType, body := bodyInfo.body } := by
  unfold requestStep
  split
  · rfl
  · split <;> rfl

theorem requestStep_ok (endpoint auth serviceName : String) (bodyInfo : BodyInfo)
    (method : String) (response : Resp) (j : Json)
    (h1 : 200 ≤ response.status) (h2 : response.status < 300)
    (hj : Json.parse response.body = some j) :
    requestStep endpoint auth serviceName bodyInfo method response =
      ({ endpoint := endpoint, method := normalizeMethod method, auth := auth,
         contentType := bodyInfo.contentType, body := bodyInfo.body }, .ok j) := by
  unfold requestStep
  rw [if_neg (by omega), hj]

theorem requestStep_fail (endpoint auth serviceName : String) (bodyInfo : BodyInfo)
    (method : String) (response : Resp)
    (hfail : response.status < 200 ∨ 300 ≤ response.status) :
    requestStep endpoint auth serviceName bodyInfo method response =
      ({ endpoint := endpoint, method := normalizeMethod method, auth := auth,
         contentType := bodyInfo.contentType, body := bodyInfo.body },
       .error (.thrownResp
         { status := response.status, statusText := response.statusText,
           headers := headersSetList "Response-Source" ("by=" ++ serviceName) response.headers,
           body := response.body })) := by
  unfold requestStep
  rw [if_pos hfail]

theorem headerNameEq_refl (n : String) : headerNameEq n n = true := by
  simp [headerNameEq]

theorem headersGet_set (hs : List (String × String)) (n v : String) :
    headersGet (headersSetList n v hs) n = some v := by
  induction hs with
  | nil => simp [headersSetList, headersGet, List.find?, headerNameEq_refl]
  | cons p rest ih =>
    by_cases h : headerNameEq p.1 n = true
    · simp [headersSetList, h, headersGet, List.find?]
    · simp only [headersSetList, Bool.not_eq_true] at h ⊢
      rw [if_neg (by simp [h])]
      simpa [headersGet, List.find?, h] using ih

theorem headersSetList_of_not_mem (hs : List (String × String)) (n v : String)
    (h : ∀ p ∈ hs, headerNameEq p.1 n = false) :
    headersSetList n v hs = hs ++ [(n, v)] := by
  induction hs with
  | nil => rfl
  | cons p rest ih =>
    have hp := h p (by simp)
    simp only [headersSetList, hp]
    rw [if_neg (by simp)]
    simp [ih (fun q hq => h q (by simp [hq]))]

theorem getSubst_no_dollar (matched before after : String) (cs : List Char)
    (h : ∀ c ∈ cs, c ≠ Char.ofNat 36) :
    getSubst matched before after cs = cs := by
  induction cs with
  | nil => rfl
  | cons c rest ih =>
    have hc : c ≠ Char.ofNat 36 := h c (by simp)
    unfold getSubst
    rw [if_neg hc, ih (fun d hd => h d (by simp [hd]))]

theorem jsStringReplace_no_dollar (s pat repl : String)
    (h : ∀ c ∈ repl.data, c ≠ Char.ofNat 36) :
    jsStringReplace s pat repl = specLiteralReplaceFirst s pat repl := by
  unfold jsStringReplace specLiteralReplaceFirst
  cases findSub s.data pat.data with
  | none => rfl
  | some i => simp [getSubst_no_dollar _ _ _ _ h]

/-- Once local validation passes, the handler's behaviour is exactly the
saga started on the last path segment. -/
theorem handleRequest_validated (env : Env) (world : Nat → Resp) (p seg fn : String)
    (q : List (String × String)) (a c : String) (b : BodyT)
    (hp : jsSplitSlash p = ["", seg, fn]) (hfn : fn ≠ "") (ha : a ≠ "") (hc : c ≠ "") :
    handleRequest env world ⟨"POST", p, q, some a, some c, some b⟩ =
      (catchResult (createFile env world fn b a c (searchParamsGet q "file_name")).1,
       (createFile env world fn b a c (searchParamsGet q "file_name")).2) := by
  unfold handleRequest
  simp only [hp]
  rw [if_neg (by simp [List.getLastD, hfn])]
  rw [if_neg (by simp)]
  simp [truthy, ha, hc, List.getLastD]

/-- Step 1 failing renders the message backend's response (plus
provenance) with exactly one call made. -/
theorem createFile_msgFail (env : Env) (world : Nat → Resp) (name : String) (data : BodyT)
    (auth ct : String) (e : Option String)
    (hfail : (world 0).status < 200 ∨ 300 ≤ (world 0).status) :
    createFile env world name data auth ct e =
      (.error (.thrownResp
         { status := (world 0).status, statusText := (world 0).statusText,
           headers := headersSetList "Response-Source" "by=message-service" (world 0).headers,
           body := (world 0).body }),
       [{ endpoint := env.MESSAGE_SERVICE_HOSTNAME ++ "/messages", method := "POST",
          auth := auth, contentType := JSON_TYPE, body := .str "\x7b\x7d" }]) := by
  unfold createFile
  rw [requestStep_fail _ _ _ _ _ _ hfail]
  rfl

/-- Step 2 failing renders the auth backend's response (plus provenance)
with exactly two calls made. -/
theorem createFile_linkFail (env : Env) (world : Nat → Resp) (name : String) (data : BodyT)
    (auth ct : String) (e : Option String) (j1 : Json) (idp : Option Json)
    (h10 : 200 ≤ (world 0).status) (h11 : (world 0).status < 300)
    (hj1 : Json.parse (world 0).body = some j1)
    (hid : Json.get j1 "id" = .ok idp)
    (hfail : (world 1).status < 200 ∨ 300 ≤ (world 1).status) :
    createFile env world name data auth ct e =
      (.error (.thrownResp
         { status := (world 1).status, statusText := (world 1).statusText,
           headers := headersSetList "Response-Source" "by=auth-service" (world 1).headers,
           body := (world 1).body }),
       [{ endpoint := env.MESSAGE_SERVICE_HOSTNAME ++ "/messages", method := "POST",
          auth := auth, contentType := JSON_TYPE, body := .str "\x7b\x7d" },
        { endpoint := env.AUTH_SERVICE_HOSTNAME ++ "/messages/" ++ jsToString idp ++ "/links",
          method := "POST", auth := auth, contentType := JSON_TYPE, body := .str "\x7b\x7d" }]) := by
  unfold createFile
  rw [requestStep_ok _ _ _ _ _ _ j1 h10 h11 hj1]
  dsimp only
  rw [hid]
  dsimp only
  rw [requestStep_fail _ _ _ _ _ _ hfail]
  rfl

/-- The full success path of `createFile`. -/
theorem createFile_ok (env : Env) (world : Nat → Resp) (name : String) (data : BodyT)
    (auth ct : String) (e : Option String) (j1 j2 j3 : Json) (idp tokp : Option Json)
    (loc : String)
    (h10 : 200 ≤ (world 0).status) (h11 : (world 0).status < 300)
    (hj1 : Json.parse (world 0).body = some j1)
    (hid : Json.get j1 "id" = .ok idp)
    (h20 : 200 ≤ (world 1).status) (h21 : (world 1).status < 300)
    (hj2 : Json.parse (world 1).body = some j2)
    (htokp : Json.get j2 "token" = .ok tokp)
    (h30 : 200 ≤ (world 2).status) (h31 : (world 2).status < 300)
    (hj3 : Json.parse (world 2).body = some j3)
    (hloc : Json.get j3 "shareable_link" = .ok (some (.str loc))) :
    createFile env world name data auth ct e =
      (.ok { status := 201, statusText := "",
             headers := [(CONTENT_TYPE_KEY, JSON_TYPE),
                         ("Location", jsStringReplace loc "\x7blink_token\x7d"
                           (jsToString tokp))],
             body := Json.stringify j3 },
       [{ endpoint := env.MESSAGE_SERVICE_HOSTNAME ++ "/messages", method := "POST",
          auth := auth, contentType := JSON_TYPE, body := .str "\x7b\x7d" },
        { endpoint := env.AUTH_SERVICE_HOSTNAME ++ "/messages/" ++ jsToString idp ++ "/links",
          method := "POST", auth := auth, contentType := JSON_TYPE, body := .str "\x7b\x7d" },
        { endpoint := env.FILE_SERVICE_HOSTNAME ++ "/messages/" ++ jsToString idp ++ "/files/" ++ encodeURIComponent name,
          method := "PUT", auth := auth, contentType := ct, body := data }]) := by
  unfold createFile
  rw [requestStep_ok _ _ _ _ _ _ j1 h10 h11 hj1]
  dsimp only
  rw [hid]
  dsimp only
  rw [requestStep_ok _ _ _ _ _ _ j2 h20 h21 hj2]
  dsimp only
  rw [requestStep_ok _ _ _ _ _ _ j3 h30 h31 hj3]
  dsimp only
  rw [hloc]
  dsimp only
  rw [htokp]
  rfl

/-- Whenever steps 1 and 2 succeed, the file call is issued with
`PUT`, the encoded name, the original body and content type — whatever
the file backend then answers. -/
theorem createFile_trace (env : Env) (world : Nat → Resp) (name : String) (data : BodyT)
    (auth ct : String) (e : Option String) (j1 j2 : Json) (idp : Option Json)
    (h10 : 200 ≤ (world 0).status) (h11 : (world 0).status < 300)
    (hj1 : Json.parse (world 0).body = some j1)
    (hid : Json.get j1 "id" = .ok idp)
    (h20 : 200 ≤ (world 1).status) (h21 : (world 1).status < 300)
    (hj2 : Json.parse (world 1).body = some j2) :
    (createFile env world name data auth ct e).2 =
      [{ endpoint := env.MESSAGE_SERVICE_HOSTNAME ++ "/messages", method := "POST",
         auth := auth, contentType := JSON_TYPE, body := .str "\x7b\x7d" },
       { endpoint := env.AUTH_SERVICE_HOSTNAME ++ "/messages/" ++ jsToString idp ++ "/links",
         method := "POST", auth := auth, contentType := JSON_TYPE, body := .str "\x7b\x7d" },
       { endpoint := env.FILE_SERVICE_HOSTNAME ++ "/messages/" ++ jsToString idp ++ "/files/" ++ encodeURIComponent name,
         method := "PUT", auth := auth, contentType := ct, body := data }] := by
  unfold createFile
  rw [requestStep_ok _ _ _ _ _ _ j1 h10 h11 hj1]
  dsimp only
  rw [hid]
  dsimp only
  rw [requestStep_ok _ _ _ _ _ _ j2 h20 h21 hj2]
  dsimp only
  split
  · rw [requestStep_fst]; rfl
  · split
    · split
      · rw [requestStep_fst]; rfl
      · rw [requestStep_fst]; rfl
    · rw [requestStep_fst]; rfl

/-! ## Claims -/

/-- C1 (amended): for every well-formed request whose three backend
calls all answer 2xx JSON with the expected fields, the orchestrator
makes exactly the three calls message → link → file; the link and file
paths embed the id from the message response; the file call is a `PUT`
forwarding the original body and content type; and the response is 201
with `Location` equal to `shareable_link` with the first occurrence of
the placeholder replaced by the auth backend's token — amended: the
replacement is literal only when the token contains no dollar character,
because JavaScript `replace` expands dollar escapes in the replacement
string (see `c1_counterexample`). -/
theorem c1_success_saga_amended (env : Env) (world : Nat → Resp) (p seg fn : String)
    (q : List (String × String)) (a c : String) (b : BodyT)
    (j1 j2 j3 : Json) (msgId tok loc : String)
    (hp : jsSplitSlash p = ["", seg, fn]) (hfn : fn ≠ "") (ha : a ≠ "") (hc : c ≠ "")
    (h10 : 200 ≤ (world 0).status) (h11 : (world 0).status < 300)
    (hj1 : Json.parse (world 0).body = some j1)
    (hid : Json.get j1 "id" = .ok (some (.str msgId)))
    (h20 : 200 ≤ (world 1).status) (h21 : (world 1).status < 300)
    (hj2 : Json.parse (world 1).body = some j2)
    (htok : Json.get j2 "token" = .ok (some (.str tok)))
    (h30 : 200 ≤ (world 2).status) (h31 : (world 2).status < 300)
    (hj3 : Json.parse (world 2).body = some j3)
    (hloc : Json.get j3 "shareable_link" = .ok (some (.str loc)))
    (hnd : ∀ d ∈ tok.data, d ≠ Char.ofNat 36) :
    handleRequest env world ⟨"POST", p, q, some a, some c, some b⟩ =
      (.resp { status := 201, statusText := "",
               headers := [(CONTENT_TYPE_KEY, JSON_TYPE),
                           ("Location", specLiteralReplaceFirst loc "\x7blink_token\x7d" tok)],
               body := Json.stringify j3 },
       [{ endpoint := env.MESSAGE_SERVICE_HOSTNAME ++ "/messages", method := "POST",
          auth := a, contentType := JSON_TYPE, body := .str "\x7b\x7d" },
        { endpoint := env.AUTH_SERVICE_HOSTNAME ++ "/messages/" ++ msgId ++ "/links",
          method := "POST", auth := a, contentType := JSON_TYPE, body := .str "\x7b\x7d" },
        { endpoint := env.FILE_SERVICE_HOSTNAME ++ "/messages/" ++ msgId ++ "/files/" ++ encodeURIComponent fn,
          method := "PUT", auth := a, contentType := c, body := b }]) := by
  rw [handleRequest_validated env world p seg fn q a c b hp hfn ha hc,
      createFile_ok env world fn b a c _ j1 j2 j3 (some (.str msgId)) (some (.str tok)) loc
        h10 h11 hj1 hid h20 h21 hj2 htok h30 h31 hj3 hloc]
  simp only [jsToString]
  rw [jsStringReplace_no_dollar _ _ _ hnd]
  rfl

theorem c1_success_saga_amended_witness :
    handleRequest demoEnv demoWorld reqDoc =
      (.resp { status := 201, statusText := "",
               headers := [(CONTENT_TYPE_KEY, JSON_TYPE),
                           ("Location", specLiteralReplaceFirst "https://s/\x7blink_token\x7d"
                             "\x7blink_token\x7d" "tok1")],
               body := Json.stringify (Json.obj [("shareable_link", Json.str "https://s/\x7blink_token\x7d")]) },
       [{ endpoint := "http://m/messages", method := "POST",
          auth := "Basic x", contentType := JSON_TYPE, body := .str "\x7b\x7d" },
        { endpoint := "http://a/messages/7/links", method := "POST",
          auth := "Basic x", contentType := JSON_TYPE, body := .str "\x7b\x7d" },
        { endpoint := "http://f/messages/7/files/doc.pdf", method := "PUT",
          auth := "Basic x", contentType := "text/plain", body := .stream "bytes" }]) :=
  c1_success_saga_amended demoEnv demoWorld "/files/doc.pdf" "files" "doc.pdf" []
    "Basic x" "text/plain" (.stream "bytes")
    (Json.obj [("id", Json.str "7")]) (Json.obj [("token", Json.str "tok1")])
    (Json.obj [("shareable_link", Json.str "https://s/\x7blink_token\x7d")])
    "7" "tok1" "https://s/\x7blink_token\x7d"
    (by decide) (by decide) (by decide) (by decide)
    (by decide) (by decide) (by rfl) (by rfl)
    (by decide) (by decide) (by rfl) (by rfl)
    (by decide) (by decide) (by rfl) (by rfl)
    (by decide)

/-- C1 counterexample: with the auth backend's token being the string
dollar-ampersand, the produced `Location` keeps the placeholder (the
escape expands to the matched substring) instead of carrying the token,
so the claim's "replaced by the auth backend's token" fails as stated. -/
theorem c1_counterexample :
    (handleRequest demoEnv demoWorldDollar reqDoc).1 =
      .resp { status := 201, statusText := "",
              headers := [("Content-Type", "application/json"),
                          ("Location", "https://s/\x7blink_token\x7d")],
              body := "\x7b\"shareable_link\":\"https://s/\x7blink_token\x7d\"\x7d" }
    ∧ specLiteralReplaceFirst "https://s/\x7blink_token\x7d" "\x7blink_token\x7d" "$&" =
        "https://s/$&"
    ∧ ("https://s/\x7blink_token\x7d" : String) ≠ "https://s/$&" := by
  decide

/-- C2: if the message-creation call answers outside 2xx, the saga stops
after that single call (no link call, no file call) and the client gets
exactly the backend's status, status text and body, with the
`Response-Source` provenance header naming `message-service`. -/
theorem c2_message_failure_short_circuit (env : Env) (world : Nat → Resp) (p seg fn : String)
    (q : List (String × String)) (a c : String) (b : BodyT)
    (hp : jsSplitSlash p = ["", seg, fn]) (hfn : fn ≠ "") (ha : a ≠ "") (hc : c ≠ "")
    (hfail : (world 0).status < 200 ∨ 300 ≤ (world 0).status) :
    handleRequest env world ⟨"POST", p, q, some a, some c, some b⟩ =
      (.resp { status := (world 0).status, statusText := (world 0).statusText,
               headers := headersSetList "Response-Source" "by=message-service" (world 0).headers,
               body := (world 0).body },
       [{ endpoint := env.MESSAGE_SERVICE_HOSTNAME ++ "/messages", method := "POST",
          auth := a, contentType := JSON_TYPE, body := .str "\x7b\x7d" }])
    ∧ headersGet (headersSetList "Response-Source" "by=message-service" (world 0).headers)
        "Response-Source" = some "by=message-service" := by
  refine ⟨?_, headersGet_set _ _ _⟩
  rw [handleRequest_validated env world p seg fn q a c b hp hfn ha hc,
      createFile_msgFail env world fn b a c _ hfail]
  rfl

theorem c2_message_failure_short_circuit_witness :
    handleRequest demoEnv demoWorldMsgFail reqDoc =
      (.resp { status := 500, statusText := "Internal Server Error",
               headers := [("X-Req", "1"), ("Response-Source", "by=message-service")],
               body := "boom" },
       [{ endpoint := "http://m/messages", method := "POST",
          auth := "Basic x", contentType := JSON_TYPE, body := .str "\x7b\x7d" }])
    ∧ headersGet (headersSetList "Response-Source" "by=message-service"
        (demoWorldMsgFail 0).headers) "Response-Source" = some "by=message-service" :=
  c2_message_failure_short_circuit demoEnv demoWorldMsgFail "/files/doc.pdf" "files" "doc.pdf"
    [] "Basic x" "text/plain" (.stream "bytes")
    (by decide) (by decide) (by decide) (by decide) (by decide)

/-- C3 (amended): a backend answer outside [200, 300) is classified into
a thrown failure carrying the original status, status text and body
bytes unparsed, and the original headers with the `Response-Source`
provenance header appended — amended: the headers are "all original
headers plus exactly one added provenance header" only when the backend
answer does not itself carry a `Response-Source` header; if it does,
`Headers.set` overwrites it (see `c3_counterexample`).  Rendering a
thrown failure returns it unchanged. -/
theorem c3_downstream_failure_amended (endpoint auth serviceName : String) (bi : BodyInfo)
    (m : String) (r : Resp)
    (hfail : r.status < 200 ∨ 300 ≤ r.status)
    (hnp : ∀ pr ∈ r.headers, headerNameEq pr.1 "Response-Source" = false) :
    requestStep endpoint auth serviceName bi m r =
      ({ endpoint := endpoint, method := normalizeMethod m, auth := auth,
         contentType := bi.contentType, body := bi.body },
       .error (.thrownResp
         { status := r.status, statusText := r.statusText,
           headers := r.headers ++ [("Response-Source", "by=" ++ serviceName)],
           body := r.body }))
    ∧ (∀ f : Resp, catchResult (.error (.thrownResp f)) = .resp f) := by
  refine ⟨?_, fun f => rfl⟩
  rw [requestStep_fail _ _ _ _ _ _ hfail, headersSetList_of_not_mem _ _ _ hnp]

theorem c3_downstream_failure_amended_witness :
    requestStep "http://m/messages" "Basic x" "message-service" defaultBodyInfo "post"
        ⟨500, "Internal Server Error", [("X-Req", "1")], "boom"⟩ =
      ({ endpoint := "http://m/messages", method := normalizeMethod "post", auth := "Basic x",
         contentType := defaultBodyInfo.contentType, body := defaultBodyInfo.body },
       .error (.thrownResp
         { status := 500, statusText := "Internal Server Error",
           headers := [("X-Req", "1")] ++ [("Response-Source", "by=" ++ "message-service")],
           body := "boom" }))
    ∧ catchResult (.error (.thrownResp preProvResp)) = .resp preProvResp :=
  have h := c3_downstream_failure_amended "http://m/messages" "Basic x" "message-service"
    defaultBodyInfo "post" ⟨500, "Internal Server Error", [("X-Req", "1")], "boom"⟩
    (by decide) (by decide)
  ⟨h.1, h.2 preProvResp⟩

/-- C3 counterexample: when the failing backend response already carries
a `Response-Source` header, the classifier overwrites it, so the result
is not "all original headers plus one added provenance header": the
original `by=origin` value is lost. -/
theorem c3_counterexample :
    thrownOf (requestStep "http://m/messages" "Basic x" "message-service" defaultBodyInfo "post"
        preProvResp).2 =
      some ⟨500, "Internal Server Error", [("Response-Source", "by=message-service")], "boom"⟩
    ∧ ([("Response-Source", "by=message-service")] : List (String × String)) ≠
        preProvResp.headers ++ [("Response-Source", "by=message-service")] := by
  decide

/-- C4: if the message call succeeds and the link call answers outside
2xx, exactly two backend calls happen in total — the file upload is
never issued and no compensating call (in particular no deletion of the
message) is ever issued — the response is the auth backend's status,
status text and body with provenance `by=auth-service`, and the response
is independent of step 1's answer: replacing the message backend's
response (and hence the message id) by any other successful response
leaves the client response unchanged, which formalizes "the response
does not contain the message id from step 1".  The hypothesis that
reading `id` off the parsed message body does not throw is implied by
the claim's premise that the link-creation call was made at all: a 2xx
message body of literally `null` aborts with a TypeError after one
call. -/
theorem c4_link_failure_two_calls (env : Env) (world : Nat → Resp) (p seg fn : String)
    (q : List (String × String)) (a c : String) (b : BodyT) (j1 : Json) (idp : Option Json)
    (hp : jsSplitSlash p = ["", seg, fn]) (hfn : fn ≠ "") (ha : a ≠ "") (hc : c ≠ "")
    (h10 : 200 ≤ (world 0).status) (h11 : (world 0).status < 300)
    (hj1 : Json.parse (world 0).body = some j1)
    (hid : Json.get j1 "id" = .ok idp)
    (hfail : (world 1).status < 200 ∨ 300 ≤ (world 1).status) :
    handleRequest env world ⟨"POST", p, q, some a, some c, some b⟩ =
      (.resp { status := (world 1).status, statusText := (world 1).statusText,
               headers := headersSetList "Response-Source" "by=auth-service" (world 1).headers,
               body := (world 1).body },
       [{ endpoint := env.MESSAGE_SERVICE_HOSTNAME ++ "/messages", method := "POST",
          auth := a, contentType := JSON_TYPE, body := .str "\x7b\x7d" },
        { endpoint := env.AUTH_SERVICE_HOSTNAME ++ "/messages/" ++ jsToString idp ++ "/links",
          method := "POST", auth := a, contentType := JSON_TYPE, body := .str "\x7b\x7d" }])
    ∧ headersGet (headersSetList "Response-Source" "by=auth-service" (world 1).headers)
        "Response-Source" = some "by=auth-service"
    ∧ (∀ (world2 : Nat → Resp) (j1b : Json) (idpb : Option Json),
         world2 1 = world 1 → 200 ≤ (world2 0).status → (world2 0).status < 300 →
         Json.parse (world2 0).body = some j1b → Json.get j1b "id" = .ok idpb →
         (handleRequest env world2 ⟨"POST", p, q, some a, some c, some b⟩).1 =
         (handleRequest env world ⟨"POST", p, q, some a, some c, some b⟩).1) := by
  have h1 : handleRequest env world ⟨"POST", p, q, some a, some c, some b⟩ =
      (.resp { status := (world 1).status, statusText := (world 1).statusText,
               headers := headersSetList "Response-Source" "by=auth-service" (world 1).headers,
               body := (world 1).body },
       [{ endpoint := env.MESSAGE_SERVICE_HOSTNAME ++ "/messages", method := "POST",
          auth := a, contentType := JSON_TYPE, body := .str "\x7b\x7d" },
        { endpoint := env.AUTH_SERVICE_HOSTNAME ++ "/messages/" ++ jsToString idp ++ "/links",
          method := "POST", auth := a, contentType := JSON_TYPE, body := .str "\x7b\x7d" }]) := by
    rw [handleRequest_validated env world p seg fn q a c b hp hfn ha hc,
        createFile_linkFail env world fn b a c _ j1 idp h10 h11 hj1 hid hfail]
    rfl
  refine ⟨h1, headersGet_set _ _ _, ?_⟩
  intro world2 j1b idpb hw h20 h21 hj1b hidb
  rw [handleRequest_validated env world2 p seg fn q a c b hp hfn ha hc,
      createFile_linkFail env world2 fn b a c _ j1b idpb h20 h21 hj1b hidb (hw.symm ▸ hfail),
      h1]
  dsimp only
  rw [hw]
  rfl

theorem c4_link_failure_two_calls_witness :
    handleRequest demoEnv demoWorldLinkFail reqDoc =
      (.resp { status := 401, statusText := "Unauthorized",
               headers := [("Response-Source", "by=auth-service")], body := "denied" },
       [{ endpoint := "http://m/messages", method := "POST",
          auth := "Basic x", contentType := JSON_TYPE, body := .str "\x7b\x7d" },
        { endpoint := "http://a/messages/7/links", method := "POST",
          auth := "Basic x", contentType := JSON_TYPE, body := .str "\x7b\x7d" }])
    ∧ headersGet (headersSetList "Response-Source" "by=auth-service"
        (demoWorldLinkFail 1).headers) "Response-Source" = some "by=auth-service"
    ∧ (handleRequest demoEnv demoWorldLinkFail2 reqDoc).1 =
        (handleRequest demoEnv demoWorldLinkFail reqDoc).1 :=
  have h := c4_link_failure_two_calls demoEnv demoWorldLinkFail "/files/doc.pdf" "files"
    "doc.pdf" [] "Basic x" "text/plain" (.stream "bytes") (Json.obj [("id", Json.str "7")])
    (some (Json.str "7"))
    (by decide) (by decide) (by decide) (by decide)
    (by decide) (by decide) (by rfl) (by rfl) (by decide)
  ⟨h.1, h.2.1,
   h.2.2 demoWorldLinkFail2 (Json.obj [("id", Json.str "8")]) (some (Json.str "8"))
     (by decide) (by decide) (by decide) (by rfl) (by rfl)⟩

/-- C5 (amended): a request that has already passed the path-shape and
method checks and lacks an `Authorization` header yields 403 with a
`WWW-Authenticate: Basic` challenge and no backend call — amended: not
"regardless of path or method correctness", because the path check (404)
and method check (405) run before the authorization check (see
`c5_counterexample`). -/
theorem c5_missing_auth_amended (env : Env) (world : Nat → Resp) (p seg fn : String)
    (q : List (String × String)) (ch : Option String) (bd : Option BodyT)
    (hp : jsSplitSlash p = ["", seg, fn]) (hfn : fn ≠ "") :
    handleRequest env world ⟨"POST", p, q, none, ch, bd⟩ =
      (.resp { status := 403, statusText := "",
               headers := [("WWW-Authenticate", "Basic")],
               body := "Missing authorization header" }, []) := by
  unfold handleRequest
  simp only [hp]
  rw [if_neg (by simp [List.getLastD, hfn])]
  rw [if_neg (by simp)]
  rfl

theorem c5_missing_auth_amended_witness :
    handleRequest demoEnv demoWorld ⟨"POST", "/files/doc.pdf", [], none, none, none⟩ =
      (.resp { status := 403, statusText := "",
               headers := [("WWW-Authenticate", "Basic")],
               body := "Missing authorization header" }, []) :=
  c5_missing_auth_amended demoEnv demoWorld "/files/doc.pdf" "files" "doc.pdf" [] none none
    (by decide) (by decide)

/-- C5 counterexample: a request without an `Authorization` header but
with the wrong method is answered 405, not 403 — the claim's "regardless
of path or method correctness" fails. -/
theorem c5_counterexample :
    outcomeStatus (handleRequest demoEnv demoWorld
        ⟨"GET", "/files/doc.pdf", [], none, none, none⟩).1 = some 405
    ∧ outcomeStatus (handleRequest demoEnv demoWorld
        ⟨"GET", "/files/doc.pdf", [], none, none, none⟩).1 ≠ some 403 := by
  decide

/-- C6 (amended): the file name sent to the file backend is
`encodeURIComponent` applied to the raw last path segment, with no prior
percent-decode — one extra layer of encoding is always added, so a raw
segment is encoded once but an already-percent-encoded segment gets
double-encoded (see `c6_counterexample`).  Hypotheses: steps 1 and 2
answer 2xx JSON and reading `id` off the parsed message body does not
throw (otherwise no file call is made at all). -/
theorem c6_outbound_name_amended (env : Env) (world : Nat → Resp) (p seg fn : String)
    (q : List (String × String)) (a c : String) (b : BodyT) (j1 j2 : Json) (idp : Option Json)
    (hp : jsSplitSlash p = ["", seg, fn]) (hfn : fn ≠ "") (ha : a ≠ "") (hc : c ≠ "")
    (h10 : 200 ≤ (world 0).status) (h11 : (world 0).status < 300)
    (hj1 : Json.parse (world 0).body = some j1)
    (hid : Json.get j1 "id" = .ok idp)
    (h20 : 200 ≤ (world 1).status) (h21 : (world 1).status < 300)
    (hj2 : Json.parse (world 1).body = some j2) :
    (handleRequest env world ⟨"POST", p, q, some a, some c, some b⟩).2 =
      [{ endpoint := env.MESSAGE_SERVICE_HOSTNAME ++ "/messages", method := "POST",
         auth := a, contentType := JSON_TYPE, body := .str "\x7b\x7d" },
       { endpoint := env.AUTH_SERVICE_HOSTNAME ++ "/messages/" ++ jsToString idp ++ "/links",
         method := "POST", auth := a, contentType := JSON_TYPE, body := .str "\x7b\x7d" },
       { endpoint := env.FILE_SERVICE_HOSTNAME ++ "/messages/" ++ jsToString idp ++ "/files/" ++ encodeURIComponent fn,
         method := "PUT", auth := a, contentType := c, body := b }] := by
  rw [handleRequest_validated env world p seg fn q a c b hp hfn ha hc]
  exact createFile_trace env world fn b a c _ j1 j2 idp h10 h11 hj1 hid h20 h21 hj2

theorem c6_outbound_name_amended_witness :
    (handleRequest demoEnv demoWorld
        ⟨"POST", "/files/a%20b.png", [], some "Basic x", some "image/png",
         some (.stream "bytes")⟩).2 =
      [{ endpoint := "http://m/messages", method := "POST",
         auth := "Basic x", contentType := JSON_TYPE, body := .str "\x7b\x7d" },
       { endpoint := "http://a/messages/7/links", method := "POST",
         auth := "Basic x", contentType := JSON_TYPE, body := .str "\x7b\x7d" },
       { endpoint := "http://f/messages/7/files/" ++ encodeURIComponent "a%20b.png",
         method := "PUT", auth := "Basic x", contentType := "image/png",
         body := .stream "bytes" }] :=
  c6_outbound_name_amended demoEnv demoWorld "/files/a%20b.png" "files" "a%20b.png" []
    "Basic x" "image/png" (.stream "bytes")
    (Json.obj [("id", Json.str "7")]) (Json.obj [("token", Json.str "tok1")])
    (some (Json.str "7"))
    (by decide) (by decide) (by decide) (by decide)
    (by decide) (by decide) (by rfl) (by rfl)
    (by decide) (by decide) (by rfl)

/-- C6 counterexample: for the inbound segment `a%20b.png` — itself the
single encoding of `a b.png` — the outbound file path carries
`a%2520b.png`, the double encoding of `a b.png`, whereas the claim's
"percent-decoded once and then percent-encoded exactly once" would send
`a%20b.png`. -/
theorem c6_counterexample :
    (handleRequest demoEnv demoWorld
        ⟨"POST", "/files/a%20b.png", [], some "Basic x", some "image/png",
         some (.stream "bytes")⟩).2 =
      [{ endpoint := "http://m/messages", method := "POST",
         auth := "Basic x", contentType := JSON_TYPE, body := .str "\x7b\x7d" },
       { endpoint := "http://a/messages/7/links", method := "POST",
         auth := "Basic x", contentType := JSON_TYPE, body := .str "\x7b\x7d" },
       { endpoint := "http://f/messages/7/files/a%2520b.png", method := "PUT",
         auth := "Basic x", contentType := "image/png", body := .stream "bytes" }]
    ∧ (decodeURIComponentSpec "a%20b.png").map encodeURIComponent = some "a%20b.png"
    ∧ encodeURIComponent (encodeURIComponent "a b.png") = "a%2520b.png"
    ∧ ("a%2520b.png" : String) ≠ "a%20b.png" := by
  decide

/-- C7 (amended): on full success the composed result has status 201, a
JSON body that is the re-serialization of the file backend's parsed JSON
(byte-identical to the backend body only when that body is canonically
serialized), and a `Location` obtained from `shareable_link` by a
single, non-global, first-occurrence substitution of the placeholder —
which is the literal token exactly when the token contains no dollar
character, since JavaScript `replace` expands dollar escapes (see
`c7_counterexample` for both discrepancies).  "On success" requires the
`id` and `token` property reads not to throw: a backend body of
literally `null` parses but aborts the handler with a TypeError instead
of producing any response. -/
theorem c7_composer_amended (env : Env) (world : Nat → Resp) (name : String) (data : BodyT)
    (auth ct : String) (e : Option String) (j1 j2 j3 : Json) (idp : Option Json)
    (tok loc : String)
    (h10 : 200 ≤ (world 0).status) (h11 : (world 0).status < 300)
    (hj1 : Json.parse (world 0).body = some j1)
    (hid : Json.get j1 "id" = .ok idp)
    (h20 : 200 ≤ (world 1).status) (h21 : (world 1).status < 300)
    (hj2 : Json.parse (world 1).body = some j2)
    (htok : Json.get j2 "token" = .ok (some (.str tok)))
    (h30 : 200 ≤ (world 2).status) (h31 : (world 2).status < 300)
    (hj3 : Json.parse (world 2).body = some j3)
    (hloc : Json.get j3 "shareable_link" = .ok (some (.str loc)))
    (hnd : ∀ d ∈ tok.data, d ≠ Char.ofNat 36) :
    (createFile env world name data auth ct e).1 =
      .ok { status := 201, statusText := "",
            headers := [(CONTENT_TYPE_KEY, JSON_TYPE),
                        ("Location", specLiteralReplaceFirst loc "\x7blink_token\x7d" tok)],
            body := Json.stringify j3 } := by
  rw [createFile_ok env world name data auth ct e j1 j2 j3 idp (some (.str tok)) loc
      h10 h11 hj1 hid h20 h21 hj2 htok h30 h31 hj3 hloc]
  simp only [jsToString]
  rw [jsStringReplace_no_dollar _ _ _ hnd]

theorem c7_composer_amended_witness :
    (createFile demoEnv demoWorld "doc.pdf" (.stream "bytes") "Basic x" "text/plain" none).1 =
      .ok { status := 201, statusText := "",
            headers := [(CONTENT_TYPE_KEY, JSON_TYPE),
                        ("Location", specLiteralReplaceFirst "https://s/\x7blink_token\x7d"
                          "\x7blink_token\x7d" "tok1")],
            body := Json.stringify (Json.obj [("shareable_link", Json.str "https://s/\x7blink_token\x7d")]) } :=
  c7_composer_amended demoEnv demoWorld "doc.pdf" (.stream "bytes") "Basic x" "text/plain"
    none (Json.obj [("id", Json.str "7")]) (Json.obj [("token", Json.str "tok1")])
    (Json.obj [("shareable_link", Json.str "https://s/\x7blink_token\x7d")])
    (some (Json.str "7")) "tok1" "https://s/\x7blink_token\x7d"
    (by decide) (by decide) (by rfl) (by rfl)
    (by decide) (by decide) (by rfl) (by rfl)
    (by decide) (by decide) (by rfl) (by rfl)
    (by decide)

/-- C7 counterexample: with the file backend answering non-canonically
spaced JSON and the auth token being dollar-ampersand, the composed body
differs from the backend's body bytes, and the `Location` differs from
the claim's literal first-occurrence substitution. -/
theorem c7_counterexample :
    (handleRequest demoEnv demoWorldC7 reqDoc).1 =
      .resp { status := 201, statusText := "",
              headers := [("Content-Type", "application/json"),
                          ("Location", "https://s/\x7blink_token\x7d")],
              body := "\x7b\"shareable_link\":\"https://s/\x7blink_token\x7d\"\x7d" }
    ∧ ("\x7b\"shareable_link\":\"https://s/\x7blink_token\x7d\"\x7d" : String) ≠ fileSpaced.body
    ∧ ("https://s/\x7blink_token\x7d" : String) ≠
        specLiteralReplaceFirst "https://s/\x7blink_token\x7d" "\x7blink_token\x7d" "$&" := by
  decide

/-- C8: local validation, always before any backend call: 404 when the
path does not split into exactly three slash-separated parts or the last
part is empty (so `POST /files/` and `POST /a/b/c` both give 404); then
405 when the method is not POST; then 403 with a `WWW-Authenticate:
Basic` challenge when the `Authorization` header yields no usable value
(absent, or present but empty — JavaScript falsiness); then 400 when the
`Content-Type` header yields no usable value; then 400 when the body
stream is null. -/
theorem c8_validation_chain (env : Env) (world : Nat → Resp) :
    (∀ req : InboundRequest,
        ((jsSplitSlash req.pathname).length ≠ 3 ∨ (jsSplitSlash req.pathname).getLastD "" = "") →
        handleRequest env world req = (.resp ⟨404, "", [], ""⟩, []))
  ∧ (∀ req : InboundRequest,
        (jsSplitSlash req.pathname).length = 3 → (jsSplitSlash req.pathname).getLastD "" ≠ "" →
        req.method ≠ "POST" →
        handleRequest env world req = (.resp ⟨405, "", [], ""⟩, []))
  ∧ (∀ req : InboundRequest,
        (jsSplitSlash req.pathname).length = 3 → (jsSplitSlash req.pathname).getLastD "" ≠ "" →
        req.method = "POST" → truthy req.authorizationHeader = none →
        handleRequest env world req =
          (.resp ⟨403, "", [("WWW-Authenticate", "Basic")], "Missing authorization header"⟩, []))
  ∧ (∀ req : InboundRequest,
        (jsSplitSlash req.pathname).length = 3 → (jsSplitSlash req.pathname).getLastD "" ≠ "" →
        req.method = "POST" → truthy req.authorizationHeader ≠ none →
        truthy req.contentTypeHeader = none →
        handleRequest env world req = (.resp ⟨400, "", [], "Missing content type header"⟩, []))
  ∧ (∀ req : InboundRequest,
        (jsSplitSlash req.pathname).length = 3 → (jsSplitSlash req.pathname).getLastD "" ≠ "" →
        req.method = "POST" → truthy req.authorizationHeader ≠ none →
        truthy req.contentTypeHeader ≠ none → req.body = none →
        handleRequest env world req = (.resp ⟨400, "", [], "Missing body"⟩, [])) := by
  refine ⟨?_, ?_, ?_, ?_, ?_⟩
  · intro req h
    unfold handleRequest
    rw [if_pos h]
  · intro req h1 h2 hm
    unfold handleRequest
    rw [if_neg (by push_neg; exact ⟨h1, h2⟩), if_pos hm]
  · intro req h1 h2 hm hauth
    unfold handleRequest
    rw [if_neg (by push_neg; exact ⟨h1, h2⟩), if_neg (by simp [hm]), hauth]
  · intro req h1 h2 hm hauth hct
    unfold handleRequest
    rw [if_neg (by push_neg; exact ⟨h1, h2⟩), if_neg (by simp [hm])]
    cases hta : truthy req.authorizationHeader with
    | none => exact absurd hta hauth
    | some a0 => rw [hct]
  · intro req h1 h2 hm hauth hct hb
    unfold handleRequest
    rw [if_neg (by push_neg; exact ⟨h1, h2⟩), if_neg (by simp [hm])]
    cases hta : truthy req.authorizationHeader with
    | none => exact absurd hta hauth
    | some a0 =>
      cases htc : truthy req.contentTypeHeader with
      | none => exact absurd htc hct
      | some c0 => rw [hb]

theorem c8_validation_chain_witness :
    handleRequest demoEnv demoWorld
        ⟨"POST", "/files/", [], some "a", some "c", some (.stream "b")⟩ =
      (.resp ⟨404, "", [], ""⟩, [])
  ∧ handleRequest demoEnv demoWorld
        ⟨"POST", "/a/b/c", [], some "a", some "c", some (.stream "b")⟩ =
      (.resp ⟨404, "", [], ""⟩, [])
  ∧ handleRequest demoEnv demoWorld
        ⟨"GET", "/files/doc.pdf", [], some "a", some "c", some (.stream "b")⟩ =
      (.resp ⟨405, "", [], ""⟩, [])
  ∧ handleRequest demoEnv demoWorld
        ⟨"POST", "/files/doc.pdf", [], none, some "c", some (.stream "b")⟩ =
      (.resp ⟨403, "", [("WWW-Authenticate", "Basic")], "Missing authorization header"⟩, [])
  ∧ handleRequest demoEnv demoWorld
        ⟨"POST", "/files/doc.pdf", [], some "a", none, some (.stream "b")⟩ =
      (.resp ⟨400, "", [], "Missing content type header"⟩, [])
  ∧ handleRequest demoEnv demoWorld
        ⟨"POST", "/files/doc.pdf", [], some "a", some "c", none⟩ =
      (.resp ⟨400, "", [], "Missing body"⟩, []) :=
  ⟨(c8_validation_chain demoEnv demoWorld).1 _ (by decide),
   (c8_validation_chain demoEnv demoWorld).1 _ (by decide),
   (c8_validation_chain demoEnv demoWorld).2.1 _ (by decide) (by decide) (by decide),
   (c8_validation_chain demoEnv demoWorld).2.2.1 _ (by decide) (by decide) (by decide)
     (by decide),
   (c8_validation_chain demoEnv demoWorld).2.2.2.1 _ (by decide) (by decide) (by decide)
     (by decide) (by decide),
   (c8_validation_chain demoEnv demoWorld).2.2.2.2 _ (by decide) (by decide) (by decide)
     (by decide) (by decide) (by decide)⟩

/-- C9: the optional expiry value is read from the query parameter
literally named `file_name` and influences nothing: two requests whose
queries agree outside that parameter produce the same outcome and the
same outbound calls (the handler's result does not depend on the query
at all), `createFile` gives equal results for any two expiry arguments,
and adding or removing a leading `file_name` pair leaves the handler's
result unchanged. -/
theorem c9_expiry_no_effect (env : Env) (world : Nat → Resp) (m p : String)
    (q q2 : List (String × String)) (ah ch : Option String) (bd : Option BodyT)
    (_hagree : ∀ k, k ≠ "file_name" → searchParamsGet q k = searchParamsGet q2 k) :
    handleRequest env world ⟨m, p, q, ah, ch, bd⟩ = handleRequest env world ⟨m, p, q2, ah, ch, bd⟩
  ∧ (∀ (name : String) (data : BodyT) (auth ct : String) (e e2 : Option String),
       createFile env world name data auth ct e = createFile env world name data auth ct e2)
  ∧ (∀ (v : String) (rest : List (String × String)),
       handleRequest env world ⟨m, p, ("file_name", v) :: rest, ah, ch, bd⟩ =
       handleRequest env world ⟨m, p, rest, ah, ch, bd⟩) := by
  refine ⟨rfl, fun name data auth ct e e2 => rfl, fun v rest => rfl⟩

theorem c9_expiry_no_effect_witness :
    handleRequest demoEnv demoWorld
        ⟨"POST", "/files/doc.pdf", [("file_name", "3600")], some "Basic x", some "text/plain",
         some (.stream "bytes")⟩ =
      handleRequest demoEnv demoWorld
        ⟨"POST", "/files/doc.pdf", [], some "Basic x", some "text/plain",
         some (.stream "bytes")⟩
  ∧ createFile demoEnv demoWorld "doc.pdf" (.stream "bytes") "Basic x" "text/plain"
        (some "3600") =
      createFile demoEnv demoWorld "doc.pdf" (.stream "bytes") "Basic x" "text/plain" none
  ∧ handleRequest demoEnv demoWorld
        ⟨"POST", "/files/doc.pdf", [("file_name", "60")], some "Basic x",
         some "text/plain", some (.stream "bytes")⟩ =
      handleRequest demoEnv demoWorld
        ⟨"POST", "/files/doc.pdf", [], some "Basic x", some "text/plain",
         some (.stream "bytes")⟩ :=
  have h := c9_expiry_no_effect demoEnv demoWorld "POST" "/files/doc.pdf"
    [("file_name", "3600")] [] (some "Basic x") (some "text/plain")
    (some (.stream "bytes"))
    (fun k hk => by
      have hbeq : ("file_name" == k) = false := by
        rw [beq_eq_false_iff_ne]
        exact Ne.symm hk
      simp [searchParamsGet, List.find?, hbeq])
  ⟨h.1, h.2.1 "doc.pdf" (.stream "bytes") "Basic x" "text/plain" (some "3600") none,
   h.2.2 "60" []⟩

/-- C10: the validator never inspects the first path segment — any POST
whose path splits into three parts with a non-empty last part behaves
exactly like `POST /files/<name>` with the same last part, and with
valid headers and body it triggers the backend saga. -/
theorem c10_first_segment_ignored (env : Env) (world : Nat → Resp)
    (p p2 seg seg2 fn : String)
    (hp : jsSplitSlash p = ["", seg, fn]) (hp2 : jsSplitSlash p2 = ["", seg2, fn])
    (hfn : fn ≠ "") :
    (∀ (q : List (String × String)) (ah ch : Option String) (bd : Option BodyT),
       handleRequest env world ⟨"POST", p, q, ah, ch, bd⟩ =
       handleRequest env world ⟨"POST", p2, q, ah, ch, bd⟩)
  ∧ (∀ (q : List (String × String)) (a c : String) (b : BodyT), a ≠ "" → c ≠ "" →
       handleRequest env world ⟨"POST", p, q, some a, some c, some b⟩ =
         (catchResult (createFile env world fn b a c (searchParamsGet q "file_name")).1,
          (createFile env world fn b a c (searchParamsGet q "file_name")).2)) := by
  constructor
  · intro q ah ch bd
    unfold handleRequest
    simp [hp, hp2, List.getLastD]
  · intro q a c b ha hc
    exact handleRequest_validated env world p seg fn q a c b hp hfn ha hc

theorem c10_first_segment_ignored_witness :
    handleRequest demoEnv demoWorld
        ⟨"POST", "//doc.pdf", [], some "Basic x", some "text/plain", some (.stream "bytes")⟩ =
      handleRequest demoEnv demoWorld
        ⟨"POST", "/files/doc.pdf", [], some "Basic x", some "text/plain", some (.stream "bytes")⟩
  ∧ handleRequest demoEnv demoWorld
        ⟨"POST", "//doc.pdf", [], some "Basic x", some "text/plain", some (.stream "bytes")⟩ =
      (catchResult (createFile demoEnv demoWorld "doc.pdf" (.stream "bytes") "Basic x"
          "text/plain" (searchParamsGet [] "file_name")).1,
       (createFile demoEnv demoWorld "doc.pdf" (.stream "bytes") "Basic x" "text/plain"
          (searchParamsGet [] "file_name")).2) :=
  have h := c10_first_segment_ignored demoEnv demoWorld "//doc.pdf" "/files/doc.pdf" ""
    "files" "doc.pdf" (by decide) (by decide) (by decide)
  ⟨h.1 [] (some "Basic x") (some "text/plain") (some (.stream "bytes")),
   h.2 [] "Basic x" "text/plain" (.stream "bytes") (by decide) (by decide)⟩

end PTF
